import Mathlib

/-!
Verification of the thread-based timeout racer in
`src/platform/wait_timeout_thread_untraced.c` of the child_wait_timeout
crate, against its natural-language specification.

The C file is embedded shallowly:

* The deadline arithmetic of `wait_timeout_untraced_internal_4`
  (lines 70-89) becomes the pure function `computeDeadline` on `Nat`.
  On the target platform `time_t` is `signed long` (64 bit), so
  `get_max_time_t` (the `_Generic` dispatch, lines 50-62) is `2^63 - 1`.
  All intermediate machine quantities are small enough that no C-level
  overflow or sign issue arises in the region we model: `timeout_ms`
  is a `uint32_t`, so `timeout_ms / 1000 <= 4294967`, and
  `tv_nsec + (timeout_ms % 1000) * 1000000 <= 1999999999 < 2^31`;
  the monotone clock gives `tv_sec >= 0` and `0 <= tv_nsec < 10^9`.
  Hence `Nat` arithmetic (with truncating division, which agrees with
  C division on non-negative operands) is a faithful translation.

* The outcomes of the external calls (mutex/condattr/cond inits,
  pthread_create, clock_gettime, pthread_cond_timedwait, waitid) are
  oracles collected in an `Env`; each call-chain function of the C file
  becomes a Lean function of the `Env` returning the resource-event
  trace it performs on the calling thread plus its result value, with
  exactly the branch structure of the source.

* The waiter thread body `wait_for_process` (lines 24-48) becomes a
  concrete event list (waitid call, outcome write, lock, signal,
  unlock) plus its recorded result.

* For the scheduling-sensitive claim, a small interleaving machine over
  the synchronization skeleton of `wait_timeout_untraced_internal_3`
  and `wait_for_process` is defined, with pthread condition-variable
  semantics (signal wakes a thread only if it is already waiting;
  timedwait atomically releases the mutex and begins waiting).
-/

/-- Maximum value of `time_t` on the target platform: `time_t` is
`signed long` (64 bit) there, so the `_Generic` in `get_max_time_t`
(C lines 50-62) selects `LONG_MAX`. -/
def get_max_time_t : Nat := 2 ^ 63 - 1

/-- Deadline computation of `wait_timeout_untraced_internal_4`
(C lines 70-89): split `timeout_ms` into whole seconds and a
nanosecond remainder, add the remainder to the clock nanoseconds,
carry into seconds, normalize, and reject (returning `none`, before
any write of the deadline) when the seconds addition would exceed
`get_max_time_t`; otherwise return the written deadline
`(ts.tv_sec, ts.tv_nsec)`. -/
def computeDeadline (tv_sec tv_nsec timeout_ms : Nat) : Option (Nat × Nat) :=
  let seconds := timeout_ms / 1000
  let nano_seconds := tv_nsec + timeout_ms % 1000 * 1000000
  let seconds2 := seconds + nano_seconds / 1000000000
  let nano_seconds2 := nano_seconds % 1000000000
  if get_max_time_t - seconds2 < tv_sec then none
  else some (tv_sec + seconds2, nano_seconds2)

/-- The total number of nanoseconds denoted by a deadline pair. -/
def deadlineNs (d : Nat × Nat) : Nat := d.1 * 1000000000 + d.2

/-- The numeric value of the errno constant ETIMEDOUT on the target
platform (Linux). -/
def ETIMEDOUT : Nat := 110

/-- Flag of `waitid` requesting a non-consuming wait: the child is left
in its waitable (zombie) state. Linux value. -/
def WNOWAIT : Nat := 0x01000000

/-- Flag of `waitid` selecting terminated children. Linux value. -/
def WEXITED : Nat := 0x00000004

/-- Oracle for the outcomes of the external calls made during one call
of `wait_timeout_untraced`.  Boolean fields record whether each
fallible external call succeeds; `clock_sec`/`clock_nsec` are the
monotonic clock reading returned by `clock_gettime` when it succeeds;
`timedwait_times_out` records whether `pthread_cond_timedwait` returns
ETIMEDOUT (deadline elapsed unsignalled) or 0 (signalled). -/
structure Env where
  mutex_init_ok : Bool
  condattr_init_ok : Bool
  condattr_setclock_ok : Bool
  cond_init_ok : Bool
  create_ok : Bool
  clock_ok : Bool
  clock_sec : Nat
  clock_nsec : Nat
  timedwait_times_out : Bool
  waitid_ok : Bool
  deriving DecidableEq, Repr

/-- Events of the waiter thread body `wait_for_process` (C lines 24-48). -/
inductive WEvent where
  | sysWaitid (flags : Nat)
  | writeOutcome (v : Int)
  | lock
  | signal
  | unlock
  deriving DecidableEq, Repr

/-- Value recorded in `proc_info->return_val` by `wait_for_process`
(C lines 29-33): -1 when `waitid` failed, 0 when it succeeded. -/
def wait_for_process_rv (waitid_ok : Bool) : Int :=
  if waitid_ok then 0 else -1

/-- The waiter thread body `wait_for_process` (C lines 24-48): call
`waitid(P_PID, pid, &info, WNOWAIT | WEXITED)`, record -1 or 0 in
`proc_info->return_val`, then lock the mutex, signal the condition
variable and unlock.  Returns the event sequence performed by the
thread together with the recorded value. -/
def wait_for_process (waitid_ok : Bool) : List WEvent × Int :=
  ([WEvent.sysWaitid (WNOWAIT ||| WEXITED),
    WEvent.writeOutcome (wait_for_process_rv waitid_ok),
    WEvent.lock, WEvent.signal, WEvent.unlock],
   wait_for_process_rv waitid_ok)

/-- Number of mutex acquisitions minus releases among the first `i`
events of a waiter trace: positive exactly when the waiter holds the
mutex when event `i` is performed. -/
def lockDepthBefore (tr : List WEvent) (i : Nat) : Nat :=
  ((tr.take i).filter (fun ev => ev == WEvent.lock)).length -
    ((tr.take i).filter (fun ev => ev == WEvent.unlock)).length

/-- True when every write of the outcome slot in the trace is performed
while the mutex is held. -/
def writesUnderLock (tr : List WEvent) : Bool :=
  (List.range tr.length).all (fun i =>
    match tr.get? i with
    | some (WEvent.writeOutcome _) => decide (0 < lockDepthBefore tr i)
    | _ => true)

/-- True when every condition-variable signal in the trace is performed
while the mutex is held. -/
def signalsUnderLock (tr : List WEvent) : Bool :=
  (List.range tr.length).all (fun i =>
    match tr.get? i with
    | some WEvent.signal => decide (0 < lockDepthBefore tr i)
    | _ => true)

/-- Number of writes of the outcome slot in a waiter trace. -/
def writeCount (tr : List WEvent) : Nat :=
  (tr.filter (fun ev => match ev with
    | WEvent.writeOutcome _ => true
    | _ => false)).length

/-- State of the target process as seen by the wait-family syscalls. -/
inductive ProcState where
  | running
  | zombie
  | reaped
  deriving DecidableEq, Repr

/-- Effect of a `waitid` call with the given flags on the state of a
process: a wait on a terminated-but-uncollected (zombie) process
collects (reaps) it unless WNOWAIT is set, in which case the process
stays collectible. -/
def waitidEffect (flags : Nat) (st : ProcState) : ProcState :=
  match st with
  | ProcState.zombie => if flags &&& WNOWAIT ≠ 0 then ProcState.zombie else ProcState.reaped
  | s => s

/-- Effect on the target process state of all syscalls a waiter trace
performs. -/
def applyWaiter (tr : List WEvent) (st : ProcState) : ProcState :=
  tr.foldl (fun s ev =>
    match ev with
    | WEvent.sysWaitid flags => waitidEffect flags s
    | _ => s) st

/-- Resource events performed on the calling thread by
`wait_timeout_untraced` and its helpers. -/
inductive REvent where
  | mutexInit
  | mutexDestroy
  | condattrInit
  | condattrDestroy
  | condInit
  | condDestroy
  | threadCreate
  | threadCancel
  | threadJoin
  | setErrno (n : Nat)
  deriving DecidableEq, Repr

/-- Return value and mechanism-set errno of one call. `errno = none`
means the mechanism itself did not assign errno (library calls it made
may have left arbitrary values there). -/
structure CallResult where
  ret : Int
  errno : Option Nat
  deriving DecidableEq, Repr

/-- Result of `wait_timeout_untraced_internal_4` (C lines 65-95): -1 on
clock failure, -1 on deadline overflow, otherwise the return of
`pthread_cond_timedwait` (ETIMEDOUT when the deadline elapsed
unsignalled, 0 when signalled). -/
def wait_timeout_untraced_internal_4 (e : Env) (timeout_ms : Nat) : Int :=
  if e.clock_ok = false then -1
  else
    match computeDeadline e.clock_sec e.clock_nsec timeout_ms with
    | none => -1
    | some _ => if e.timedwait_times_out then (ETIMEDOUT : Int) else 0

/-- `wait_timeout_untraced_internal_3` (C lines 98-135): create the
waiter thread (propagating failure), lock the mutex, run internal_4,
unlock; on ETIMEDOUT cancel the thread; join unconditionally; on
ETIMEDOUT set errno to ETIMEDOUT and return -1, otherwise return
`proc_info->return_val` (which after the join holds the waiter
outcome, the waiter not having been cancelled on this path).  Returns
the resource-event trace performed by the calling thread and the call
result. -/
def wait_timeout_untraced_internal_3 (e : Env) (timeout_ms : Nat) :
    List REvent × CallResult :=
  if e.create_ok = false then ([], { ret := -1, errno := none })
  else
    let r := wait_timeout_untraced_internal_4 e timeout_ms
    if r = (ETIMEDOUT : Int) then
      ([REvent.threadCreate, REvent.threadCancel, REvent.threadJoin,
        REvent.setErrno ETIMEDOUT],
       { ret := -1, errno := some ETIMEDOUT })
    else
      ([REvent.threadCreate, REvent.threadJoin],
       { ret := wait_for_process_rv e.waitid_ok, errno := none })

/-- `wait_timeout_untraced_internal_2` (C lines 137-159): set
`proc_info.return_val` to -1, set the condattr clock (propagating
failure), init the condition variable (propagating failure), run
internal_3, destroy the condition variable. -/
def wait_timeout_untraced_internal_2 (e : Env) (timeout_ms : Nat) :
    List REvent × CallResult :=
  if e.condattr_setclock_ok = false then ([], { ret := -1, errno := none })
  else if e.cond_init_ok = false then ([], { ret := -1, errno := none })
  else
    let p := wait_timeout_untraced_internal_3 e timeout_ms
    (REvent.condInit :: p.1 ++ [REvent.condDestroy], p.2)

/-- `wait_timeout_untraced_internal_1` (C lines 161-175): init the
condattr (propagating failure), run internal_2, destroy the
condattr. -/
def wait_timeout_untraced_internal_1 (e : Env) (timeout_ms : Nat) :
    List REvent × CallResult :=
  if e.condattr_init_ok = false then ([], { ret := -1, errno := none })
  else
    let p := wait_timeout_untraced_internal_2 e timeout_ms
    (REvent.condattrInit :: p.1 ++ [REvent.condattrDestroy], p.2)

/-- `wait_timeout_untraced` (C lines 177-189): init the mutex
(propagating failure), run internal_1, destroy the mutex. -/
def wait_timeout_untraced (e : Env) (timeout_ms : Nat) :
    List REvent × CallResult :=
  if e.mutex_init_ok = false then ([], { ret := -1, errno := none })
  else
    let p := wait_timeout_untraced_internal_1 e timeout_ms
    (REvent.mutexInit :: p.1 ++ [REvent.mutexDestroy], p.2)

/-- Number of occurrences of one resource event in a trace. -/
def countEvt (tr : List REvent) (a : REvent) : Nat :=
  (tr.filter (fun ev => ev == a)).length

/-- True when `a` occurs strictly before `b` in the trace (compared by
first occurrence). -/
def beforeEvt (tr : List REvent) (a b : REvent) : Bool :=
  decide (tr.indexOf a < tr.indexOf b)

/-- Scoped-cleanup check for one call trace: every successfully
performed init is matched by exactly as many destroys, every created
thread is joined, and, when a join happened, it happened before the
condition variable and the mutex were destroyed (and the condition
variable before the mutex). -/
def scopedCleanup (tr : List REvent) : Bool :=
  countEvt tr REvent.mutexInit == countEvt tr REvent.mutexDestroy &&
  countEvt tr REvent.condattrInit == countEvt tr REvent.condattrDestroy &&
  countEvt tr REvent.condInit == countEvt tr REvent.condDestroy &&
  countEvt tr REvent.threadCreate == countEvt tr REvent.threadJoin &&
  (!(tr.contains REvent.threadJoin) ||
    (beforeEvt tr REvent.threadJoin REvent.condDestroy &&
     beforeEvt tr REvent.condDestroy REvent.mutexDestroy))

/-- An environment in which every external call succeeds, the clock
reads zero, the condition wait is signalled before the deadline and
`waitid` succeeds. -/
def envAllOk : Env :=
  { mutex_init_ok := true, condattr_init_ok := true,
    condattr_setclock_ok := true, cond_init_ok := true, create_ok := true,
    clock_ok := true, clock_sec := 0, clock_nsec := 0,
    timedwait_times_out := false, waitid_ok := true }

/-- Like `envAllOk` but the condition wait times out. -/
def envTimedOut : Env :=
  { envAllOk with timedwait_times_out := true }

/-- Program counter of the racer inside
`wait_timeout_untraced_internal_3`, starting right after
`pthread_create` succeeded (C line 103): about to lock (line 109),
holding the lock, blocked in `pthread_cond_timedwait`, or returned
from the wait with 0 (signalled) or ETIMEDOUT. -/
inductive RPC where
  | beforeLock
  | locked
  | waiting
  | doneSignaled
  | doneTimeout
  deriving DecidableEq, Repr

/-- Program counter of the waiter thread in `wait_for_process`:
blocked in `waitid`, about to lock (C line 39), holding the lock
having not yet signalled, having signalled (C line 42), or finished
(after unlock, line 45). -/
inductive WPC where
  | inWaitid
  | beforeLockW
  | lockedW
  | signaledW
  | doneW
  deriving DecidableEq, Repr

/-- Owner of the shared mutex. -/
inductive LockOwner where
  | free
  | racer
  | waiter
  deriving DecidableEq, Repr

/-- Joint state of the two threads racing on the monitor, plus the two
external facts (target process terminated; absolute deadline elapsed)
and whether a condition-variable signal was delivered to the racer
while it was actually waiting. -/
structure RaceState where
  rpc : RPC
  wpc : WPC
  lockOwner : LockOwner
  processExited : Bool
  deadlinePassed : Bool
  woken : Bool
  deriving DecidableEq, Repr

/-- Scheduler labels: environment events (process exit, deadline
elapse) and the atomic steps of the two threads.  `rWaitBegin` is the
atomic release-the-mutex-and-begin-waiting of
`pthread_cond_timedwait`; `rWakeReturn` / `rTimeoutReturn` are its two
ways of returning (each reacquires the mutex); `wSignal` delivers
`pthread_cond_signal`, which per POSIX wakes the racer only if the
racer is currently waiting — a signal with no waiter has no effect. -/
inductive Label where
  | procExit
  | deadline
  | rLock
  | rWaitBegin
  | rWakeReturn
  | rTimeoutReturn
  | wWaitidRet
  | wLock
  | wSignal
  | wUnlock
  deriving DecidableEq, Repr

/-- One atomic step of the race; labels that are not enabled in the
current state leave it unchanged. -/
def raceStep (s : RaceState) (l : Label) : RaceState :=
  match l with
  | Label.procExit => { s with processExited := true }
  | Label.deadline => { s with deadlinePassed := true }
  | Label.rLock =>
      if s.rpc = RPC.beforeLock ∧ s.lockOwner = LockOwner.free then
        { s with rpc := RPC.locked, lockOwner := LockOwner.racer }
      else s
  | Label.rWaitBegin =>
      if s.rpc = RPC.locked ∧ s.lockOwner = LockOwner.racer then
        { s with rpc := RPC.waiting, lockOwner := LockOwner.free }
      else s
  | Label.rWakeReturn =>
      if s.rpc = RPC.waiting ∧ s.woken = true ∧ s.lockOwner = LockOwner.free then
        { s with rpc := RPC.doneSignaled, lockOwner := LockOwner.racer }
      else s
  | Label.rTimeoutReturn =>
      if s.rpc = RPC.waiting ∧ s.deadlinePassed = true ∧ s.woken = false ∧
          s.lockOwner = LockOwner.free then
        { s with rpc := RPC.doneTimeout, lockOwner := LockOwner.racer }
      else s
  | Label.wWaitidRet =>
      if s.wpc = WPC.inWaitid ∧ s.processExited = true then
        { s with wpc := WPC.beforeLockW }
      else s
  | Label.wLock =>
      if s.wpc = WPC.beforeLockW ∧ s.lockOwner = LockOwner.free then
        { s with wpc := WPC.lockedW, lockOwner := LockOwner.waiter }
      else s
  | Label.wSignal =>
      if s.wpc = WPC.lockedW ∧ s.lockOwner = LockOwner.waiter then
        { s with wpc := WPC.signaledW,
                 woken := if s.rpc = RPC.waiting then true else s.woken }
      else s
  | Label.wUnlock =>
      if s.wpc = WPC.signaledW ∧ s.lockOwner = LockOwner.waiter then
        { s with wpc := WPC.doneW, lockOwner := LockOwner.free }
      else s

/-- Run of the race machine on a schedule (a list of labels). -/
def raceRun (s : RaceState) (sched : List Label) : RaceState :=
  sched.foldl raceStep s

/-- State of the race right after `pthread_create` returned
successfully (C line 103): neither thread holds the mutex, the racer
is about to lock, the waiter is in `waitid`, nothing has happened
yet. -/
def raceInit : RaceState :=
  { rpc := RPC.beforeLock, wpc := WPC.inWaitid, lockOwner := LockOwner.free,
    processExited := false, deadlinePassed := false, woken := false }

/-- The lost-wakeup schedule: the target process terminates at once and
the whole waiter thread body runs to completion in the window between
`pthread_create` (C line 103) and the racer acquiring the mutex
(C line 109); the deadline elapses long after. -/
def lostWakeupSchedule : List Label :=
  [Label.procExit, Label.wWaitidRet, Label.wLock, Label.wSignal, Label.wUnlock,
   Label.rLock, Label.rWaitBegin, Label.deadline, Label.rTimeoutReturn]

/-- Like `envAllOk` but `pthread_cond_init` fails. -/
def envCondInitFail : Env :=
  { envAllOk with cond_init_ok := false }

/-- Like `envAllOk` but `waitid` fails (for example an invalid pid). -/
def envWaitidFail : Env :=
  { envAllOk with waitid_ok := false }

/-- Like `envAllOk` but `clock_gettime` fails while `waitid`
succeeds. -/
def envClockFail : Env :=
  { envAllOk with clock_ok := false }

/-- An environment in which every external call succeeds but the clock
reading is so large that adding one second to it overflows `time_t`:
the deadline computation rejects. -/
def envOverflow : Env :=
  { envAllOk with clock_sec := 2 ^ 63 - 1 }

/-- A second overflow environment (clock one second below the maximum,
timeout of two seconds). -/
def envOverflow2 : Env :=
  { envAllOk with clock_sec := 2 ^ 63 - 2 }

/-- C1-C10 theorems appear below, after the remaining definitions. -/
theorem computeDeadline_exact (tv_sec tv_nsec timeout_ms : Nat)
    (hn : tv_nsec < 1000000000) (ht : timeout_ms < 4294967296) :
    (∀ S N, computeDeadline tv_sec tv_nsec timeout_ms = some (S, N) →
      S * 1000000000 + N = tv_sec * 1000000000 + tv_nsec + timeout_ms * 1000000 ∧
      N < 1000000000 ∧ S ≤ get_max_time_t) ∧
    (computeDeadline tv_sec tv_nsec timeout_ms = none ↔
      get_max_time_t <
        tv_sec + (timeout_ms / 1000 + (tv_nsec + timeout_ms % 1000 * 1000000) / 1000000000)) := by
  unfold computeDeadline
  simp only [get_max_time_t]
  constructor
  · intro S N h
    by_cases hov : (2 ^ 63 - 1 : Nat) -
        (timeout_ms / 1000 + (tv_nsec + timeout_ms % 1000 * 1000000) / 1000000000) < tv_sec
    · simp [hov] at h
      obtain ⟨h1, h2, h3⟩ := h
      omega
    · simp only [hov, if_false, Option.some.injEq, Prod.mk.injEq] at h
      obtain ⟨hS, hN⟩ := h
      subst hS hN
      refine ⟨?_, ?_, ?_⟩ <;> omega
  · by_cases hov : (2 ^ 63 - 1 : Nat) -
        (timeout_ms / 1000 + (tv_nsec + timeout_ms % 1000 * 1000000) / 1000000000) < tv_sec
    · simp only [hov, if_true, true_iff]
      omega
    · simp only [hov, if_false]
      constructor
      · intro h
        exact absurd h (by simp)
      · intro h
        omega

/-- Helper: the six possible outcomes of one call, by exhaustive case
analysis on the oracle booleans: early returns of the mutex init,
condattr init, setclock or cond init, and thread-creation failures,
then the timed-out and the not-timed-out full runs. -/
theorem wait_timeout_untraced_shapes (e : Env) (t : Nat) :
    wait_timeout_untraced e t = ([], { ret := -1, errno := none }) ∨
    wait_timeout_untraced e t =
      ([REvent.mutexInit, REvent.mutexDestroy], { ret := -1, errno := none }) ∨
    wait_timeout_untraced e t =
      ([REvent.mutexInit, REvent.condattrInit, REvent.condattrDestroy,
        REvent.mutexDestroy], { ret := -1, errno := none }) ∨
    wait_timeout_untraced e t =
      ([REvent.mutexInit, REvent.condattrInit, REvent.condInit, REvent.condDestroy,
        REvent.condattrDestroy, REvent.mutexDestroy], { ret := -1, errno := none }) ∨
    wait_timeout_untraced e t =
      ([REvent.mutexInit, REvent.condattrInit, REvent.condInit, REvent.threadCreate,
        REvent.threadCancel, REvent.threadJoin, REvent.setErrno ETIMEDOUT,
        REvent.condDestroy, REvent.condattrDestroy, REvent.mutexDestroy],
       { ret := -1, errno := some ETIMEDOUT }) ∨
    wait_timeout_untraced e t =
      ([REvent.mutexInit, REvent.condattrInit, REvent.condInit, REvent.threadCreate,
        REvent.threadJoin, REvent.condDestroy, REvent.condattrDestroy,
        REvent.mutexDestroy],
       { ret := wait_for_process_rv e.waitid_ok, errno := none }) := by
  by_cases h4 : wait_timeout_untraced_internal_4 e t = (ETIMEDOUT : Int) <;>
  cases hm : e.mutex_init_ok <;>
  cases ha : e.condattr_init_ok <;>
  cases hs : e.condattr_setclock_ok <;>
  cases hc : e.cond_init_ok <;>
  cases hcr : e.create_ok <;>
  simp [wait_timeout_untraced, wait_timeout_untraced_internal_1,
    wait_timeout_untraced_internal_2, wait_timeout_untraced_internal_3,
    hm, ha, hs, hc, hcr, h4]

/-- C1: once the waiter thread was created, if the condition-variable
wait returned ETIMEDOUT the racer cancels the waiter thread, then
joins it, sets errno to ETIMEDOUT and returns -1; if the wait did not
return ETIMEDOUT the racer joins the waiter without cancelling and
returns the waiter recorded outcome `proc_info->return_val` (0 for
success of `waitid`, -1 for failure). -/
theorem racer_timeout_policy (e : Env) (t : Nat) (hcr : e.create_ok = true) :
    (wait_timeout_untraced_internal_4 e t = (ETIMEDOUT : Int) →
      wait_timeout_untraced_internal_3 e t =
        ([REvent.threadCreate, REvent.threadCancel, REvent.threadJoin,
          REvent.setErrno ETIMEDOUT],
         { ret := -1, errno := some ETIMEDOUT })) ∧
    (wait_timeout_untraced_internal_4 e t ≠ (ETIMEDOUT : Int) →
      wait_timeout_untraced_internal_3 e t =
        ([REvent.threadCreate, REvent.threadJoin],
         { ret := wait_for_process_rv e.waitid_ok, errno := none })) := by
  unfold wait_timeout_untraced_internal_3
  constructor <;> intro h <;> simp [hcr, h]

/-- Witness for C1 at a concrete environment in which the wait times
out. -/
theorem racer_timeout_policy_witness :
    envTimedOut.create_ok = true ∧
    wait_timeout_untraced_internal_3 envTimedOut 0 =
      ([REvent.threadCreate, REvent.threadCancel, REvent.threadJoin,
        REvent.setErrno ETIMEDOUT],
       { ret := -1, errno := some ETIMEDOUT }) :=
  ⟨by decide, (racer_timeout_policy envTimedOut 0 (by decide)).1 (by decide)⟩

/-- C2: the waiter thread performs exactly its non-consuming wait, a
`waitid` with flags `WNOWAIT | WEXITED`; applied to a target in the
terminated-but-uncollected state this leaves the target in that state
(the mechanism never reaps it); and the waiter records 0 in the
outcome slot when `waitid` succeeded and -1 when it failed. -/
theorem waiter_nonconsuming_records (b : Bool) :
    ((wait_for_process b).1.all (fun ev =>
      match ev with
      | WEvent.sysWaitid flags => flags == (WNOWAIT ||| WEXITED)
      | _ => true)) = true ∧
    ((wait_for_process b).1.countP (fun ev =>
      match ev with
      | WEvent.sysWaitid _ => true
      | _ => false)) = 1 ∧
    applyWaiter (wait_for_process b).1 ProcState.zombie = ProcState.zombie ∧
    (wait_for_process b).2 = (if b then 0 else -1) ∧
    (wait_for_process b).1.contains
      (WEvent.writeOutcome (wait_for_process b).2) = true := by
  cases b <;> decide

/-- C3: under a valid monotonic clock reading and any uint32 timeout,
when the computed deadline is accepted it is exactly the clock reading
plus `timeout_ms` milliseconds with the nanosecond field normalized
into `[0, 10^9)` and a representable seconds field; a zero timeout is
accepted; the accepted deadline strictly increases with the timeout;
and the computation rejects (before writing the deadline) exactly when
the seconds component would exceed the maximum representable
`time_t`. -/
theorem deadline_arithmetic (tv_sec tv_nsec t : Nat)
    (hn : tv_nsec < 1000000000) (ht : t < 4294967296) :
    (∀ S N, computeDeadline tv_sec tv_nsec t = some (S, N) →
      S * 1000000000 + N = tv_sec * 1000000000 + tv_nsec + t * 1000000 ∧
      N < 1000000000 ∧ S ≤ get_max_time_t) ∧
    (tv_sec ≤ get_max_time_t → computeDeadline tv_sec tv_nsec 0 = some (tv_sec, tv_nsec)) ∧
    (∀ t2 S N S2 N2, t < t2 → t2 < 4294967296 →
      computeDeadline tv_sec tv_nsec t = some (S, N) →
      computeDeadline tv_sec tv_nsec t2 = some (S2, N2) →
      S * 1000000000 + N < S2 * 1000000000 + N2) ∧
    (computeDeadline tv_sec tv_nsec t = none ↔
      get_max_time_t <
        tv_sec + (t / 1000 + (tv_nsec + t % 1000 * 1000000) / 1000000000)) := by
  refine ⟨(computeDeadline_exact tv_sec tv_nsec t hn ht).1, ?_, ?_,
    (computeDeadline_exact tv_sec tv_nsec t hn ht).2⟩
  · intro hle
    unfold computeDeadline
    simp only [get_max_time_t] at hle ⊢
    have hcond : ¬ ((2 ^ 63 - 1 : Nat) -
        (0 / 1000 + (tv_nsec + 0 % 1000 * 1000000) / 1000000000) < tv_sec) := by
      omega
    rw [if_neg hcond]
    have h1 : (0 : Nat) / 1000 + (tv_nsec + 0 % 1000 * 1000000) / 1000000000 = 0 := by
      omega
    have h2 : (tv_nsec + 0 % 1000 * 1000000) % 1000000000 = tv_nsec := by
      omega
    rw [h1, h2, Nat.add_zero]
  · intro t2 S N S2 N2 hlt ht2 hd1 hd2
    have e1 := ((computeDeadline_exact tv_sec tv_nsec t hn ht).1 S N hd1).1
    have e2 := ((computeDeadline_exact tv_sec tv_nsec t2 hn ht2).1 S2 N2 hd2).1
    omega

/-- Witness for C3 at the concrete clock reading (5 s, 999999999 ns)
and a timeout of 1500 ms. -/
theorem deadline_arithmetic_witness :
    999999999 < 1000000000 ∧ 1500 < 4294967296 ∧
    ((∀ S N, computeDeadline 5 999999999 1500 = some (S, N) →
      S * 1000000000 + N = 5 * 1000000000 + 999999999 + 1500 * 1000000 ∧
      N < 1000000000 ∧ S ≤ get_max_time_t) ∧
    (5 ≤ get_max_time_t → computeDeadline 5 999999999 0 = some (5, 999999999)) ∧
    (∀ t2 S N S2 N2, 1500 < t2 → t2 < 4294967296 →
      computeDeadline 5 999999999 1500 = some (S, N) →
      computeDeadline 5 999999999 t2 = some (S2, N2) →
      S * 1000000000 + N < S2 * 1000000000 + N2) ∧
    (computeDeadline 5 999999999 1500 = none ↔
      get_max_time_t <
        5 + (1500 / 1000 + (999999999 + 1500 % 1000 * 1000000) / 1000000000))) :=
  ⟨by decide, by decide, deadline_arithmetic 5 999999999 1500 (by decide) (by decide)⟩

/-- C4 counterexample: with every external call succeeding, a clock
reading at the maximum representable second and a timeout of 1000 ms,
the deadline computation overflows (rejects), yet the call trace
contains the creation of the waiter thread, and the call does not even
fail: it returns 0, the waiter outcome.  This refutes the claim that
the overflow failure is surfaced before any waiter thread is
spawned. -/
theorem overflow_path_spawns_thread :
    computeDeadline envOverflow.clock_sec envOverflow.clock_nsec 1000 = none ∧
    (wait_timeout_untraced envOverflow 1000).1.contains REvent.threadCreate = true ∧
    (wait_timeout_untraced envOverflow 1000).2 = { ret := 0, errno := none } :=
  ⟨by decide, by decide, by decide⟩

/-- C4 amended: when the requested timeout overflows the deadline
representation, the waiter thread has already been spawned when the
overflow is detected; the thread is then joined (creation strictly
before the join in the trace) and the call returns the waiter recorded
outcome with no mechanism-set errno, rather than a distinct overflow
error. -/
theorem overflow_detected_after_spawn (e : Env) (t : Nat)
    (hm : e.mutex_init_ok = true) (ha : e.condattr_init_ok = true)
    (hs : e.condattr_setclock_ok = true) (hc : e.cond_init_ok = true)
    (hcr : e.create_ok = true) (hck : e.clock_ok = true)
    (hov : computeDeadline e.clock_sec e.clock_nsec t = none) :
    (wait_timeout_untraced e t).1.contains REvent.threadCreate = true ∧
    beforeEvt (wait_timeout_untraced e t).1 REvent.threadCreate REvent.threadJoin = true ∧
    (wait_timeout_untraced e t).2 =
      { ret := wait_for_process_rv e.waitid_ok, errno := none } := by
  have h4 : wait_timeout_untraced_internal_4 e t = -1 := by
    unfold wait_timeout_untraced_internal_4
    simp [hck, hov]
  have hne : wait_timeout_untraced_internal_4 e t ≠ (ETIMEDOUT : Int) := by
    rw [h4]; decide
  have heq : wait_timeout_untraced e t =
      ([REvent.mutexInit, REvent.condattrInit, REvent.condInit, REvent.threadCreate,
        REvent.threadJoin, REvent.condDestroy, REvent.condattrDestroy,
        REvent.mutexDestroy],
       { ret := wait_for_process_rv e.waitid_ok, errno := none }) := by
    unfold wait_timeout_untraced wait_timeout_untraced_internal_1
      wait_timeout_untraced_internal_2 wait_timeout_untraced_internal_3
    simp [hm, ha, hs, hc, hcr, hne]
  rw [heq]
  exact ⟨rfl, rfl, rfl⟩

/-- Witness for C4 amended at the concrete overflow environment. -/
theorem overflow_detected_after_spawn_witness :
    computeDeadline envOverflow.clock_sec envOverflow.clock_nsec 1000 = none ∧
    ((wait_timeout_untraced envOverflow 1000).1.contains REvent.threadCreate = true ∧
    beforeEvt (wait_timeout_untraced envOverflow 1000).1
      REvent.threadCreate REvent.threadJoin = true ∧
    (wait_timeout_untraced envOverflow 1000).2 =
      { ret := wait_for_process_rv envOverflow.waitid_ok, errno := none }) :=
  ⟨by decide,
   overflow_detected_after_spawn envOverflow 1000 (by decide) (by decide) (by decide)
     (by decide) (by decide) (by decide) (by decide)⟩

/-- C5 counterexample: a deadline overflow does not produce a failure
at all when the waiter wait succeeds (the call returns 0), and a
condvar-init setup failure yields exactly the same result as a failure
of the target-process wait itself (both -1 with no mechanism-set
errno), so the setup-failure category is not distinguishable from the
target-wait failure in the result returned to the caller. -/
theorem error_categories_counterexample :
    computeDeadline envOverflow2.clock_sec envOverflow2.clock_nsec 2000 = none ∧
    (wait_timeout_untraced envOverflow2 2000).2 = { ret := 0, errno := none } ∧
    (wait_timeout_untraced envCondInitFail 0).2 =
      (wait_timeout_untraced envWaitidFail 0).2 :=
  ⟨by decide, by decide, by decide⟩

/-- C5 amended: every call returns 0 or -1; the result carries a
mechanism-set errno of ETIMEDOUT exactly on the timed-out path (all
setup steps succeeded, the thread was created and the condition wait
returned ETIMEDOUT), which makes the Timeout result distinguishable
from every other outcome; and every pre-spawn setup failure (mutex
init, condattr init, setclock, cond init, or thread creation) returns
-1 with no mechanism-set errno — the same result as a failure of the
target-process wait, so those two categories are not distinguishable
from each other, only the combined Error category is. -/
theorem result_categories (e : Env) (t : Nat) :
    ((wait_timeout_untraced e t).2.ret = 0 ∨ (wait_timeout_untraced e t).2.ret = -1) ∧
    ((wait_timeout_untraced e t).2.errno = some ETIMEDOUT ↔
      (e.mutex_init_ok = true ∧ e.condattr_init_ok = true ∧
       e.condattr_setclock_ok = true ∧ e.cond_init_ok = true ∧ e.create_ok = true ∧
       wait_timeout_untraced_internal_4 e t = (ETIMEDOUT : Int))) ∧
    ((e.mutex_init_ok = false ∨ e.condattr_init_ok = false ∨
      e.condattr_setclock_ok = false ∨ e.cond_init_ok = false ∨ e.create_ok = false) →
      (wait_timeout_untraced e t).2 = { ret := -1, errno := none }) := by
  by_cases h4 : wait_timeout_untraced_internal_4 e t = (ETIMEDOUT : Int) <;>
  cases hm : e.mutex_init_ok <;>
  cases ha : e.condattr_init_ok <;>
  cases hs : e.condattr_setclock_ok <;>
  cases hc : e.cond_init_ok <;>
  cases hcr : e.create_ok <;>
  cases hw : e.waitid_ok <;>
  simp [wait_timeout_untraced, wait_timeout_untraced_internal_1,
    wait_timeout_untraced_internal_2, wait_timeout_untraced_internal_3,
    wait_for_process_rv, hm, ha, hs, hc, hcr, hw, h4]

/-- Witness for C5 amended: the setup-failure branch instantiated at
the concrete cond-init-failure environment. -/
theorem result_categories_witness :
    (wait_timeout_untraced envCondInitFail 0).2 = { ret := -1, errno := none } :=
  (result_categories envCondInitFail 0).2.2 (by decide)

/-- C6: the code swallows a deadline-computation failure that occurs
after the waiter thread was spawned: with `clock_gettime` failing and
`waitid` succeeding, `wait_timeout_untraced` returns 0 (the waiter
Success outcome) and sets no errno, instead of returning a failure.
The -1 returned by `wait_timeout_untraced_internal_4` is not
ETIMEDOUT, so `wait_timeout_untraced_internal_3` falls through to
returning `proc_info->return_val`. -/
theorem clock_failure_swallowed :
    envClockFail.clock_ok = false ∧ envClockFail.waitid_ok = true ∧
    (wait_timeout_untraced envClockFail 0).2 = { ret := 0, errno := none } :=
  ⟨rfl, rfl, by decide⟩

/-- C7 counterexample: in the waiter thread body there is exactly one
write of the outcome slot, and it is not performed while the monitor
mutex is held (the write at C lines 29-33 precedes the lock at line
39), refuting the claim that every write of the outcome slot happens
only while the mutex is held. -/
theorem outcome_write_not_under_lock :
    writeCount (wait_for_process true).1 = 1 ∧
    writesUnderLock (wait_for_process true).1 = false := by
  decide

/-- C7 amended: per call the outcome slot is written exactly once, by
the waiter thread, with the recorded outcome value; the write happens
before the waiter acquires the mutex (not while holding it), and the
condition-variable signal that follows is performed while the mutex is
held. -/
theorem outcome_write_discipline (b : Bool) :
    writeCount (wait_for_process b).1 = 1 ∧
    writesUnderLock (wait_for_process b).1 = false ∧
    signalsUnderLock (wait_for_process b).1 = true ∧
    (wait_for_process b).1 =
      [WEvent.sysWaitid (WNOWAIT ||| WEXITED),
       WEvent.writeOutcome (wait_for_process_rv b),
       WEvent.lock, WEvent.signal, WEvent.unlock] := by
  cases b <;> exact ⟨by decide, by decide, by decide, rfl⟩

/-- C8: a lost wakeup is possible.  In the interleaving in which the
target process terminates immediately and the whole waiter thread body
(waitid return, mutex lock, signal, unlock) runs in the window between
`pthread_create` (C line 103) and the racer acquiring the mutex
(C line 109), the signal is delivered while the racer is not yet
waiting, so when the deadline later elapses the racer returns
ETIMEDOUT: the process exited before the deadline (the exit event
precedes the deadline event in the schedule) and yet the call reports
a timeout, which per `wait_timeout_untraced_internal_3` is returned as
-1 with errno ETIMEDOUT. -/
theorem lost_wakeup_times_out :
    (raceRun raceInit lostWakeupSchedule).rpc = RPC.doneTimeout ∧
    (raceRun raceInit lostWakeupSchedule).processExited = true ∧
    lostWakeupSchedule.indexOf Label.procExit <
      lostWakeupSchedule.indexOf Label.deadline ∧
    (wait_timeout_untraced_internal_3 envTimedOut 0).2 =
      { ret := -1, errno := some ETIMEDOUT } :=
  ⟨by decide, by decide, by decide, by decide⟩

/-- C9: on every path of `wait_timeout_untraced` (all oracle outcomes,
all timeouts) the resource trace is correctly scoped: every mutex,
condattr and condvar init is matched by exactly as many destroys,
every created waiter thread is joined, and the join precedes the
destruction of the condition variable, which precedes the destruction
of the mutex. -/
theorem scoped_cleanup_all_paths (e : Env) (t : Nat) :
    scopedCleanup (wait_timeout_untraced e t).1 = true := by
  rcases wait_timeout_untraced_shapes e t with h | h | h | h | h | h <;>
    rw [h] <;> rfl

/-- C10 counterexample: on a clock-read failure path (a setup failure)
with the waiter wait succeeding, the call returns 0, refuting the
claim that every setup-failure path returns -1. -/
theorem return_value_counterexample :
    envClockFail.clock_ok = false ∧
    (wait_timeout_untraced envClockFail 7).2.ret = 0 :=
  ⟨rfl, by decide⟩

/-- C10 amended: the call returns only 0 or -1 (never the pid); it
returns 0 exactly when setup and thread creation succeeded, the
condition wait did not report ETIMEDOUT (which includes the paths on
which the deadline computation failed after the spawn) and the waiter
non-consuming wait succeeded; and the mechanism itself sets errno
exactly on the timed-out path, to ETIMEDOUT. -/
theorem return_value_characterization (e : Env) (t : Nat) :
    ((wait_timeout_untraced e t).2.ret = 0 ∨ (wait_timeout_untraced e t).2.ret = -1) ∧
    ((wait_timeout_untraced e t).2.ret = 0 ↔
      (e.mutex_init_ok = true ∧ e.condattr_init_ok = true ∧
       e.condattr_setclock_ok = true ∧ e.cond_init_ok = true ∧ e.create_ok = true ∧
       wait_timeout_untraced_internal_4 e t ≠ (ETIMEDOUT : Int) ∧
       e.waitid_ok = true)) ∧
    ((wait_timeout_untraced e t).2.errno = some ETIMEDOUT ↔
      (e.mutex_init_ok = true ∧ e.condattr_init_ok = true ∧
       e.condattr_setclock_ok = true ∧ e.cond_init_ok = true ∧ e.create_ok = true ∧
       wait_timeout_untraced_internal_4 e t = (ETIMEDOUT : Int))) := by
  by_cases h4 : wait_timeout_untraced_internal_4 e t = (ETIMEDOUT : Int) <;>
  cases hm : e.mutex_init_ok <;>
  cases ha : e.condattr_init_ok <;>
  cases hs : e.condattr_setclock_ok <;>
  cases hc : e.cond_init_ok <;>
  cases hcr : e.create_ok <;>
  cases hw : e.waitid_ok <;>
  simp [wait_timeout_untraced, wait_timeout_untraced_internal_1,
    wait_timeout_untraced_internal_2, wait_timeout_untraced_internal_3,
    wait_for_process_rv, hm, ha, hs, hc, hcr, hw, h4]
